import Mathlib

/-!
Shallow embedding of the itinerary generator of the AI Travel Planner
repository (`TripPlannerService`).  Numbers are modelled over `ℚ`/`ℤ`
(JS arithmetic on the values occurring here is exact), `Math.round` is
floor of `x + 1/2`, and the two `Math.random()` draws made for every
activity are supplied by an explicit oracle indexed by day and slot.
-/

namespace TripPlanner

/-- JS `Math.round`: round half toward positive infinity. -/
def jsRound (q : ℚ) : ℤ := ⌊q + 1/2⌋

/-- Mirrors `interface Hotel` of the service. -/
structure Hotel where
  name : String
  rating : ℚ
  pricePerNight : ℤ
  description : String
  amenities : List String
deriving DecidableEq

/-- Mirrors `interface Activity` of the service. -/
structure Activity where
  name : String
  duration : String
  cost : ℤ
  description : String
  category : String
deriving DecidableEq

/-- Mirrors `interface DayPlan` of the service. -/
structure DayPlan where
  day : ℕ
  theme : String
  activities : List Activity
  estimatedCost : ℤ
deriving DecidableEq

/-- Mirrors `interface TripPlan` of the service. -/
structure TripPlan where
  destination : String
  totalDays : ℕ
  totalCost : ℤ
  costPerPerson : ℤ
  hotels : List Hotel
  dayPlans : List DayPlan
  overview : String
  tips : List String
deriving DecidableEq

/-- Mirrors `interface TripFormData`: the request.  The travel date
(`Date | undefined`) is opaque to the generator and modelled as an
optional integer timestamp. -/
structure TripFormData where
  destination : String
  date : Option ℤ
  people : ℕ
  budget : ℚ
  experienceType : ℕ
deriving DecidableEq

/-- Oracle for the two `Math.random()` calls made per activity
(duration pick and cost jitter), indexed by day number and slot. -/
structure RandomDraws where
  durationDraw : ℕ → ℕ → ℚ
  costDraw : ℕ → ℕ → ℚ

/-- The eight fixed day themes (lines 136-145). -/
def themes : List String :=
  ["Arrival & City Exploration",
   "Cultural Heritage Tour",
   "Adventure & Nature",
   "Local Cuisine & Markets",
   "Art & Museums",
   "Relaxation & Wellness",
   "Shopping & Entertainment",
   "Departure & Last Moments"]

/-- The candidate-name lookup of `generateActivityName` (lines 190-217):
a theme-keyed table for four of the themes, every other theme falling
back to the four generic candidates. -/
def baseActivityChoices (destination theme : String) : List String :=
  if theme = "Arrival & City Exploration" then
    [destination ++ " Walking Tour",
     "Historic City Center Visit",
     "Local Orientation & Welcome Dinner",
     "Sunset Viewpoint Tour"]
  else if theme = "Cultural Heritage Tour" then
    ["Heritage Sites & Monuments",
     "Traditional Dance Performance",
     "Local Art Gallery Visit",
     "Historical Museum Tour"]
  else if theme = "Adventure & Nature" then
    ["Nature Hiking Trail",
     "Water Sports Adventure",
     "Wildlife Safari Tour",
     "Mountain Trekking Experience"]
  else if theme = "Local Cuisine & Markets" then
    ["Street Food Walking Tour",
     "Cooking Class Experience",
     "Local Market Exploration",
     "Wine/Tea Tasting Session"]
  else
    ["City Tour", "Local Experience", "Cultural Visit", "Scenic Tour"]

/-- The `baseActivities[index % baseActivities.length]` selection
(line 218), before any tier prefixing. -/
def baseActivityName (destination theme : String) (index : ℕ) : String :=
  let baseActivities := baseActivityChoices destination theme
  baseActivities.getD (index % baseActivities.length) ""

/-- Embeds `generateActivityName` (lines 189-227): pick a candidate, then
prefix "Private " above 75 or else "Premium " above 50. -/
def generateActivityName (destination theme : String) (index : ℕ)
    (experienceType : ℕ) : String :=
  let activity := baseActivityName destination theme index
  if experienceType > 75 then "Private " ++ activity
  else if experienceType > 50 then "Premium " ++ activity
  else activity

/-- Embeds `generateActivityDescription` (lines 229-239); the theme
argument is taken but unused, as in the source. -/
def generateActivityDescription (theme : String) (experienceType : ℕ) : String :=
  if experienceType ≤ 25 then
    "An authentic local experience that offers great value and genuine cultural immersion."
  else if experienceType ≤ 50 then
    "A well-organized experience combining comfort with authentic local culture and history."
  else if experienceType ≤ 75 then
    "A premium experience with expert guides, exclusive access, and luxury amenities."
  else
    "An ultra-luxury experience with private access, world-class service, and exclusive perks."

/-- Embeds `getActivityCategory` (lines 241-244): six labels cycled by
slot index; the theme argument is unused, as in the source. -/
def getActivityCategory (theme : String) (index : ℕ) : String :=
  let categories := ["Cultural", "Adventure", "Food & Drink", "Sightseeing",
                     "Entertainment", "Wellness"]
  categories.getD (index % categories.length) ""

/-- The duration pool of line 157. -/
def durationChoices : List String := ["2 hours", "3 hours", "Half day", "Full day"]

/-- One activity of the inner loop (lines 154-162). -/
def mkActivity (r : RandomDraws) (destination theme : String) (day i : ℕ)
    (experienceType : ℕ) : Activity :=
  let luxuryMultiplier : ℚ := 1 + (experienceType : ℚ) / 100
  { name := generateActivityName destination theme i experienceType
    duration := durationChoices.getD (⌊r.durationDraw day i * 4⌋).toNat ""
    cost := jsRound ((500 + r.costDraw day i * 3000) * luxuryMultiplier)
    description := generateActivityDescription theme experienceType
    category := getActivityCategory theme i }

/-- Activity count per day (line 152):
`experienceType <= 25 ? 3 : experienceType <= 75 ? 4 : 5`. -/
def activityCount (experienceType : ℕ) : ℕ :=
  if experienceType ≤ 25 then 3 else if experienceType ≤ 75 then 4 else 5

/-- One day of the outer loop (lines 147-172). -/
def mkDayPlan (r : RandomDraws) (destination : String) (experienceType day : ℕ) :
    DayPlan :=
  let theme := themes.getD ((day - 1) % themes.length) ""
  let activities := (List.range (activityCount experienceType)).map
    (fun i => mkActivity r destination theme day i experienceType)
  { day := day
    theme := theme
    activities := activities
    estimatedCost := activities.foldl (fun sum a => sum + a.cost) 0 }

/-- Day-count derivation (line 92):
`Math.min(Math.max(Math.floor(budget / 8000), 3), 14)`. -/
def totalDaysOf (budget : ℚ) : ℕ := (min (max ⌊budget / 8000⌋ 3) 14).toNat

/-- The hotel pushed by the four-way `if` of lines 100-132.  Each branch
pushes exactly one hotel, so the `hotels` array is this singleton. -/
def mkHotel (destination : String) (experienceType : ℕ) : Hotel :=
  let luxuryMultiplier : ℚ := 1 + (experienceType : ℚ) / 100
  if experienceType ≤ 25 then
    { name := destination ++ " Backpacker\x27s Haven"
      rating := 41/10
      pricePerNight := jsRound (1500 * luxuryMultiplier)
      description := "Clean, comfortable hostel with great social atmosphere and local vibes."
      amenities := ["Free WiFi", "Shared Kitchen", "Common Area", "Laundry", "24/7 Reception"] }
  else if experienceType ≤ 50 then
    { name := destination ++ " Comfort Inn & Suites"
      rating := 43/10
      pricePerNight := jsRound (3500 * luxuryMultiplier)
      description := "Modern hotel offering great value with excellent amenities and service."
      amenities := ["Free WiFi", "Breakfast", "Gym", "Pool", "Room Service", "Parking"] }
  else if experienceType ≤ 75 then
    { name := destination ++ " Premium Resort"
      rating := 46/10
      pricePerNight := jsRound (7500 * luxuryMultiplier)
      description := "Upscale resort with premium amenities and exceptional service."
      amenities := ["Free WiFi", "Spa", "Fine Dining", "Concierge", "Pool", "Beach Access"] }
  else
    { name := "The Luxury " ++ destination ++ " Collection"
      rating := 49/10
      pricePerNight := jsRound (15000 * luxuryMultiplier)
      description := "Ultra-luxury hotel offering world-class amenities and personalized service."
      amenities := ["Butler Service", "Private Pool", "Michelin Star Dining", "Spa",
                    "Helicopter Tours", "Private Beach"] }

/-- Embeds `generateOverview` (lines 246-252). -/
def generateOverview (destination : String) (days experienceType : ℕ) : String :=
  let experienceLevel :=
    if experienceType ≤ 25 then "budget-friendly adventure"
    else if experienceType ≤ 50 then "comfortable exploration"
    else if experienceType ≤ 75 then "premium journey" else "luxury expedition"
  "Experience the best of " ++ destination ++ " in this carefully crafted " ++
    toString days ++ "-day " ++ experienceLevel ++
    ". From iconic landmarks to hidden gems, this itinerary balances must-see attractions with authentic local experiences."

/-- The five general tips seeded at lines 255-261. -/
def generalTips (destination : String) : List String :=
  ["Best time to visit " ++ destination ++
     " is during the shoulder season for fewer crowds and better prices.",
   "Download offline maps and translation apps before you go for easier navigation.",
   "Try to learn a few basic phrases in the local language - locals appreciate the effort!",
   "Pack comfortable walking shoes as you\x27ll be doing lots of exploring on foot.",
   "Keep digital and physical copies of important documents in separate locations."]

/-- Embeds `generateTips` (lines 254-273): the general tips, with two more
pushed above 50 and one more above 75. -/
def generateTips (destination : String) (experienceType : ℕ) : List String :=
  generalTips destination ++
    (if experienceType > 50 then
      ["Consider hiring a private guide for personalized insights and skip-the-line access.",
       "Make restaurant reservations in advance, especially for popular or high-end establishments."]
     else []) ++
    (if experienceType > 75 then
      ["Arrange for private airport transfers and concierge services for a seamless experience."]
     else [])

/-- Embeds `generateMockTripPlan` (lines 88-187). -/
def generateMockTripPlan (r : RandomDraws) (formData : TripFormData) : TripPlan :=
  let destination := formData.destination
  let people := formData.people
  let budget := formData.budget
  let experienceType := formData.experienceType
  let totalDays := totalDaysOf budget
  let hotels : List Hotel := [mkHotel destination experienceType]
  let dayPlans := (List.range totalDays).map
    (fun d => mkDayPlan r destination experienceType (d + 1))
  -- `hotels[0]` is the single hotel pushed above
  let totalCost := dayPlans.foldl (fun sum d => sum + d.estimatedCost) 0 +
    (mkHotel destination experienceType).pricePerNight * (totalDays : ℤ)
  { destination := destination
    totalDays := totalDays
    totalCost := totalCost
    costPerPerson := jsRound ((totalCost : ℚ) / (people : ℚ))
    hotels := hotels
    dayPlans := dayPlans
    overview := generateOverview destination totalDays experienceType
    tips := generateTips destination experienceType }

/-- The caller-visible result record of `generateTripPlan`
(`{ success: boolean; data?: TripPlan; error?: string }`). -/
structure GenerateResult where
  success : Bool
  data : Option TripPlan
  error : Option String
deriving DecidableEq

/-- Embeds `generateTripPlan` (lines 63-86).  Every operation performed by the
`try` body is total (the synthesis above), so the `catch` branch that
would produce `success: false` is unreachable and the result is always
the success record. -/
def generateTripPlan (r : RandomDraws) (formData : TripFormData) : GenerateResult :=
  { success := true
    data := some (generateMockTripPlan r formData)
    error := none }

/-- Base nightly price of the hotel band, as the spec states it:
1500 on [0,25], 3500 on (25,50], 7500 on (50,75], 15000 above. -/
def specBasePrice (experienceType : ℕ) : ℚ :=
  if experienceType ≤ 25 then 1500
  else if experienceType ≤ 50 then 3500
  else if experienceType ≤ 75 then 7500
  else 15000

/-- A fixed oracle (both draws constantly zero) used for concrete runs. -/
def zeroDraws : RandomDraws := ⟨fun _ _ => 0, fun _ _ => 0⟩

/-- The scenario request of the spec: Paris, 2 people, budget 40000,
experience level 25. -/
def parisRequest : TripFormData :=
  { destination := "Paris", date := none, people := 2, budget := 40000,
    experienceType := 25 }

/-- A premium-band request (experience level 60). -/
def premiumRequest : TripFormData :=
  { destination := "Rome", date := some 0, people := 2, budget := 64000,
    experienceType := 60 }

/-- A luxury-band request (experience level 80, budget giving 3 days). -/
def luxuryRequest : TripFormData :=
  { destination := "Goa", date := some 0, people := 4, budget := 5000,
    experienceType := 80 }

/-- A no-prefix request (experience level 30). -/
def comfortRequest : TripFormData :=
  { destination := "Agra", date := none, people := 3, budget := 5000,
    experienceType := 30 }

/-! ### Helper lemmas -/

/-- Rounding an exact integer value gives that integer. -/
theorem jsRound_intCast (n : ℤ) : jsRound ((n : ℚ)) = n := by
  unfold jsRound
  have h0 : ⌊((1 : ℚ)/2)⌋ = 0 := by
    rw [show ((1 : ℚ)/2) = (((1 : ℤ) : ℚ)) / (((2 : ℕ) : ℚ)) by norm_num,
      Rat.floor_intCast_div_natCast]
    decide
  rw [Int.floor_int_add, h0, add_zero]

/-- Evaluate the day-count formula on a natural-number budget. -/
theorem totalDaysOf_lit (a : ℕ) :
    totalDaysOf ((a : ℚ)) = (min (max ((a : ℤ) / 8000) 3) 14).toNat := by
  unfold totalDaysOf
  rw [show ((a : ℚ) / 8000) = (((a : ℤ) : ℚ)) / (((8000 : ℕ) : ℚ)) by push_cast; norm_num,
    Rat.floor_intCast_div_natCast]
  norm_num

theorem totalDaysOf_5000 : totalDaysOf 5000 = 3 := by
  rw [show (5000 : ℚ) = ((5000 : ℕ) : ℚ) by norm_num, totalDaysOf_lit]
  decide

theorem totalDaysOf_40000 : totalDaysOf 40000 = 5 := by
  rw [show (40000 : ℚ) = ((40000 : ℕ) : ℚ) by norm_num, totalDaysOf_lit]
  decide

theorem totalDaysOf_64000 : totalDaysOf 64000 = 8 := by
  rw [show (64000 : ℚ) = ((64000 : ℕ) : ℚ) by norm_num, totalDaysOf_lit]
  decide

theorem totalDaysOf_1000000 : totalDaysOf 1000000 = 14 := by
  rw [show (1000000 : ℚ) = ((1000000 : ℕ) : ℚ) by norm_num, totalDaysOf_lit]
  decide

/-- Summing with a fold from 0, as the source's `reduce` does, agrees
with summing the mapped list. -/
theorem foldl_add_map {α : Type} (f : α → ℤ) (l : List α) :
    l.foldl (fun s a => s + f a) 0 = (l.map f).sum := by
  rw [List.sum_eq_foldl, List.foldl_map]

/-- No string both starts with "Private " and with "Premium ". -/
theorem private_ne_premium (s t : String) : "Private " ++ s ≠ "Premium " ++ t := by
  intro h
  have h2 := congrArg String.data h
  simp [String.data_append] at h2

/-! ### C2: day count is the clamped budget quotient -/

/-- C2: for every request the generated plan's day count equals
`clamp(floor(budget/8000), 3, 14)`, it is a function of the budget
alone (`totalDaysOf`), and the three example budgets evaluate to
3, 8 and 14 days. -/
theorem generateMockTripPlan_totalDays_clamp (r : RandomDraws) (fd : TripFormData) :
    (((generateMockTripPlan r fd).totalDays : ℤ)) = min (max ⌊fd.budget / 8000⌋ 3) 14
    ∧ (generateMockTripPlan r fd).totalDays = totalDaysOf fd.budget
    ∧ totalDaysOf 5000 = 3 ∧ totalDaysOf 64000 = 8 ∧ totalDaysOf 1000000 = 14 := by
  refine ⟨?_, rfl, totalDaysOf_5000, totalDaysOf_64000, totalDaysOf_1000000⟩
  show ((totalDaysOf fd.budget : ℕ) : ℤ) = _
  unfold totalDaysOf
  have h3 : (0 : ℤ) ≤ min (max ⌊fd.budget / 8000⌋ 3) 14 :=
    le_min (le_trans (by norm_num) (le_max_right _ 3)) (by norm_num)
  exact Int.toNat_of_nonneg h3

/-! ### C3: exactly one hotel, banded and scaled nightly price -/

/-- C3: for every request with experience level at most 100 the plan
holds exactly one hotel, whose nightly price is the band base price
(1500/3500/7500/15000 with boundaries 25/50/75) scaled by
`1 + e/100` and rounded. -/
theorem generateMockTripPlan_hotel_band_price (r : RandomDraws) (fd : TripFormData)
    (he : fd.experienceType ≤ 100) :
    (generateMockTripPlan r fd).hotels.length = 1
    ∧ (generateMockTripPlan r fd).hotels.map Hotel.pricePerNight =
        [jsRound (specBasePrice fd.experienceType *
          (1 + ((fd.experienceType : ℚ)) / 100))] := by
  refine ⟨rfl, ?_⟩
  show [(mkHotel fd.destination fd.experienceType).pricePerNight] = _
  unfold mkHotel specBasePrice
  split_ifs <;> rfl

/-- Witness for C3 at the premium request (experience level 60). -/
theorem generateMockTripPlan_hotel_band_price_witness :
    (generateMockTripPlan zeroDraws premiumRequest).hotels.length = 1
    ∧ (generateMockTripPlan zeroDraws premiumRequest).hotels.map Hotel.pricePerNight =
        [jsRound (specBasePrice premiumRequest.experienceType *
          (1 + ((premiumRequest.experienceType : ℚ)) / 100))] :=
  generateMockTripPlan_hotel_band_price zeroDraws premiumRequest (by decide)

/-! ### C8: generation never fails on well-formed input -/

/-- C8: for every well-formed request (positive budget, at least one
traveler) the wrapped generation call returns the success record
carrying the generated plan, and the error branch is never taken. -/
theorem generateTripPlan_never_fails (r : RandomDraws) (fd : TripFormData)
    (hb : 0 < fd.budget) (hp : 1 ≤ fd.people) :
    generateTripPlan r fd =
      { success := true, data := some (generateMockTripPlan r fd), error := none } :=
  rfl

/-- Witness for C8 at the Paris request. -/
theorem generateTripPlan_never_fails_witness :
    generateTripPlan zeroDraws parisRequest =
      { success := true, data := some (generateMockTripPlan zeroDraws parisRequest),
        error := none } :=
  generateTripPlan_never_fails zeroDraws parisRequest (by decide) (by decide)

/-! ### C9: the travel date never influences the plan -/

/-- C9: two requests differing only in the travel date (present or
absent) generate identical plans under the same draws, and two
requests with the same budget get the same day count. -/
theorem generateMockTripPlan_date_irrelevant (r : RandomDraws)
    (fd fd2 : TripFormData) (d1 d2 : Option ℤ) (hb : fd.budget = fd2.budget) :
    generateMockTripPlan r { fd with date := d1 } =
      generateMockTripPlan r { fd with date := d2 }
    ∧ (generateMockTripPlan r fd).totalDays = (generateMockTripPlan r fd2).totalDays := by
  refine ⟨rfl, ?_⟩
  show totalDaysOf fd.budget = totalDaysOf fd2.budget
  rw [hb]

/-- Witness for C9: same budget, different destination, date and party. -/
theorem generateMockTripPlan_date_irrelevant_witness :
    generateMockTripPlan zeroDraws { luxuryRequest with date := none } =
      generateMockTripPlan zeroDraws { luxuryRequest with date := some 7 }
    ∧ (generateMockTripPlan zeroDraws luxuryRequest).totalDays =
        (generateMockTripPlan zeroDraws comfortRequest).totalDays :=
  generateMockTripPlan_date_irrelevant zeroDraws luxuryRequest comfortRequest
    none (some 7) rfl

/-! ### C1: cost rollups are exact -/

/-- C1: for every well-formed request and every outcome of the draws,
the plan's total cost is the sum of the daily estimated costs plus the
single hotel's nightly price times the day count, the per-person cost
is the rounded quotient by the party size, and each day's estimated
cost is exactly the sum of its activities' costs. -/
theorem generateMockTripPlan_cost_invariants (r : RandomDraws) (fd : TripFormData)
    (hb : 0 < fd.budget) (hp : 1 ≤ fd.people) :
    ∃ h : Hotel, (generateMockTripPlan r fd).hotels = [h]
    ∧ (generateMockTripPlan r fd).totalCost =
        ((generateMockTripPlan r fd).dayPlans.map DayPlan.estimatedCost).sum
          + h.pricePerNight * (((generateMockTripPlan r fd).totalDays : ℕ) : ℤ)
    ∧ (generateMockTripPlan r fd).costPerPerson =
        jsRound ((((generateMockTripPlan r fd).totalCost : ℤ) : ℚ) / ((fd.people : ℚ)))
    ∧ ∀ d ∈ (generateMockTripPlan r fd).dayPlans,
        d.estimatedCost = (d.activities.map Activity.cost).sum := by
  refine ⟨mkHotel fd.destination fd.experienceType, rfl, ?_, rfl, ?_⟩
  · simp only [generateMockTripPlan]
    rw [foldl_add_map]
  · intro d hd
    simp only [generateMockTripPlan, List.mem_map] at hd
    obtain ⟨i, _, rfl⟩ := hd
    simp only [mkDayPlan]
    exact foldl_add_map Activity.cost _

/-- Witness for C1 at the Paris request. -/
theorem generateMockTripPlan_cost_invariants_witness :
    ∃ h : Hotel, (generateMockTripPlan zeroDraws parisRequest).hotels = [h]
    ∧ (generateMockTripPlan zeroDraws parisRequest).totalCost =
        ((generateMockTripPlan zeroDraws parisRequest).dayPlans.map DayPlan.estimatedCost).sum
          + h.pricePerNight * (((generateMockTripPlan zeroDraws parisRequest).totalDays : ℕ) : ℤ)
    ∧ (generateMockTripPlan zeroDraws parisRequest).costPerPerson =
        jsRound ((((generateMockTripPlan zeroDraws parisRequest).totalCost : ℤ) : ℚ) /
          ((parisRequest.people : ℚ)))
    ∧ ∀ d ∈ (generateMockTripPlan zeroDraws parisRequest).dayPlans,
        d.estimatedCost = (d.activities.map Activity.cost).sum :=
  generateMockTripPlan_cost_invariants zeroDraws parisRequest (by decide) (by decide)

/-! ### C5: activities per day, three-way banding -/

/-- C5: every day of every generated plan has 3 activities when the
experience level is at most 25, 4 when it is between 26 and 75, and 5
above 75 — a three-way banding coarser than the four hotel bands. -/
theorem generateMockTripPlan_activity_counts (r : RandomDraws) (fd : TripFormData) :
    (generateMockTripPlan r fd).dayPlans.map (fun d => d.activities.length) =
      List.replicate (generateMockTripPlan r fd).totalDays
        (if fd.experienceType ≤ 25 then 3
         else if fd.experienceType ≤ 75 then 4 else 5) := by
  rw [List.eq_replicate_iff]
  constructor
  · simp [generateMockTripPlan]
  · intro x hx
    simp only [generateMockTripPlan, List.map_map, List.mem_map, Function.comp,
      List.mem_range] at hx
    obtain ⟨i, _, rfl⟩ := hx
    simp [mkDayPlan, activityCount]

/-! ### C7: tips accumulate by tier -/

/-- C7: the tips list has length 5 up to level 50, 7 up to 75, and 8
above; the five general tips are always its first five entries and
higher tiers only append further tips. -/
theorem generateMockTripPlan_tips (r : RandomDraws) (fd : TripFormData) :
    (generateMockTripPlan r fd).tips.length =
      (if fd.experienceType ≤ 50 then 5 else if fd.experienceType ≤ 75 then 7 else 8)
    ∧ (generateMockTripPlan r fd).tips.take 5 = generalTips fd.destination
    ∧ ∃ rest, (generateMockTripPlan r fd).tips = generalTips fd.destination ++ rest := by
  refine ⟨?_, ?_, ?_⟩
  · show (generateTips fd.destination fd.experienceType).length = _
    unfold generateTips generalTips
    split_ifs <;> simp_all <;> omega
  · show (generateTips fd.destination fd.experienceType).take 5 = _
    unfold generateTips
    rw [List.append_assoc,
      show (5 : ℕ) = (generalTips fd.destination).length from rfl, List.take_left]
  · show ∃ rest, generateTips fd.destination fd.experienceType = _ ++ rest
    unfold generateTips
    exact ⟨_, List.append_assoc _ _ _⟩

/-! ### Projection and membership helpers -/

theorem mkActivity_name (r : RandomDraws) (dest theme : String) (day i e : ℕ) :
    (mkActivity r dest theme day i e).name = generateActivityName dest theme i e := rfl

theorem mkDayPlan_theme (r : RandomDraws) (dest : String) (e day : ℕ) :
    (mkDayPlan r dest e day).theme = themes.getD ((day - 1) % themes.length) "" := rfl

theorem mkDayPlan_activities (r : RandomDraws) (dest : String) (e day : ℕ) :
    (mkDayPlan r dest e day).activities =
      (List.range (activityCount e)).map
        (fun i => mkActivity r dest (themes.getD ((day - 1) % themes.length) "") day i e) :=
  rfl

theorem generateMockTripPlan_dayPlans (r : RandomDraws) (fd : TripFormData) :
    (generateMockTripPlan r fd).dayPlans =
      (List.range (totalDaysOf fd.budget)).map
        (fun d => mkDayPlan r fd.destination fd.experienceType (d + 1)) := rfl

theorem generateMockTripPlan_hotels (r : RandomDraws) (fd : TripFormData) :
    (generateMockTripPlan r fd).hotels = [mkHotel fd.destination fd.experienceType] := rfl

theorem generateMockTripPlan_totalDays (r : RandomDraws) (fd : TripFormData) :
    (generateMockTripPlan r fd).totalDays = totalDaysOf fd.budget := rfl

theorem mkDayPlan_mem (r : RandomDraws) (fd : TripFormData) (day : ℕ)
    (hday : day < totalDaysOf fd.budget) :
    mkDayPlan r fd.destination fd.experienceType (day + 1) ∈
      (generateMockTripPlan r fd).dayPlans := by
  rw [generateMockTripPlan_dayPlans]
  exact List.mem_map.mpr ⟨day, List.mem_range.mpr hday, rfl⟩

theorem mkActivity_mem (r : RandomDraws) (dest : String) (e day i : ℕ)
    (hi : i < activityCount e) :
    mkActivity r dest (themes.getD ((day - 1) % themes.length) "") day i e ∈
      (mkDayPlan r dest e day).activities := by
  rw [mkDayPlan_activities]
  exact List.mem_map.mpr ⟨i, List.mem_range.mpr hi, rfl⟩

/-- Every activity of every day of a plan is named by
`generateActivityName` at some slot index. -/
theorem activity_name_shape (r : RandomDraws) (fd : TripFormData) :
    ∀ d ∈ (generateMockTripPlan r fd).dayPlans, ∀ a ∈ d.activities,
      ∃ i, a.name = generateActivityName fd.destination d.theme i fd.experienceType := by
  intro d hd a ha
  rw [generateMockTripPlan_dayPlans] at hd
  rw [List.mem_map] at hd
  obtain ⟨day, _, rfl⟩ := hd
  rw [mkDayPlan_activities, List.mem_map] at ha
  obtain ⟨i, _, rfl⟩ := ha
  exact ⟨i, rfl⟩

/-! ### C6: tier prefixes on activity names -/

/-- C6: at level 80 every activity name is "Private " plus a base name
and never "Premium " plus anything; at level 60 every name is
"Premium " plus a base name; at level 30 names are the unprefixed
candidates. -/
theorem generateMockTripPlan_name_tiering (r : RandomDraws) (fd : TripFormData) :
    (fd.experienceType = 80 →
      ∀ d ∈ (generateMockTripPlan r fd).dayPlans, ∀ a ∈ d.activities,
        (∃ rest, a.name = "Private " ++ rest) ∧ ∀ rest2, a.name ≠ "Premium " ++ rest2)
    ∧ (fd.experienceType = 60 →
      ∀ d ∈ (generateMockTripPlan r fd).dayPlans, ∀ a ∈ d.activities,
        ∃ rest, a.name = "Premium " ++ rest)
    ∧ (fd.experienceType = 30 →
      ∀ d ∈ (generateMockTripPlan r fd).dayPlans, ∀ a ∈ d.activities,
        ∃ i, a.name = baseActivityName fd.destination d.theme i) := by
  refine ⟨?_, ?_, ?_⟩ <;> intro he d hd a ha <;>
    obtain ⟨i, hn⟩ := activity_name_shape r fd d hd a ha
  · constructor
    · exact ⟨baseActivityName fd.destination d.theme i, by rw [hn, he]; rfl⟩
    · intro rest2 hcontra
      rw [hn, he] at hcontra
      exact private_ne_premium (baseActivityName fd.destination d.theme i) rest2 hcontra
  · exact ⟨baseActivityName fd.destination d.theme i, by rw [hn, he]; rfl⟩
  · exact ⟨i, by rw [hn, he]; rfl⟩

/-- Witness for C6 at the luxury request (level 80), day 1, slot 0. -/
theorem generateMockTripPlan_name_tiering_witness :
    (∃ rest,
        (mkActivity zeroDraws "Goa" (themes.getD 0 "") 1 0 80).name = "Private " ++ rest)
    ∧ ∀ rest2,
        (mkActivity zeroDraws "Goa" (themes.getD 0 "") 1 0 80).name ≠ "Premium " ++ rest2 :=
  (generateMockTripPlan_name_tiering zeroDraws luxuryRequest).1 rfl
    (mkDayPlan zeroDraws "Goa" 80 1)
    (mkDayPlan_mem zeroDraws luxuryRequest 0
      (by show 0 < totalDaysOf (5000 : ℚ); rw [totalDaysOf_5000]; decide))
    (mkActivity zeroDraws "Goa" (themes.getD 0 "") 1 0 80)
    (mkActivity_mem zeroDraws "Goa" 80 1 0 (by decide))

/-! ### C10: luxury days repeat the first candidate in slot five -/

/-- Candidate-name lists always hold exactly four entries. -/
theorem baseActivityChoices_length (dest theme : String) :
    (baseActivityChoices dest theme).length = 4 := by
  unfold baseActivityChoices
  split_ifs <;> rfl

/-- Slot 4 picks the same candidate as slot 0. -/
theorem baseActivityName_four (dest theme : String) :
    baseActivityName dest theme 4 = baseActivityName dest theme 0 := by
  show (baseActivityChoices dest theme).getD
      (4 % (baseActivityChoices dest theme).length) "" =
    (baseActivityChoices dest theme).getD
      (0 % (baseActivityChoices dest theme).length) ""
  rw [baseActivityChoices_length]

/-- C10 (implicit): above level 75 each day has 5 activities while the
candidate lists have 4 entries cycled by slot, so the fifth activity of
every day repeats the first one's name, "Private "-prefixed. -/
theorem generateMockTripPlan_luxury_slot_clash (r : RandomDraws) (fd : TripFormData)
    (he : 75 < fd.experienceType) :
    (∀ dest theme, (baseActivityChoices dest theme).length = 4)
    ∧ (generateMockTripPlan r fd).dayPlans.map (fun d => d.activities.length) =
        List.replicate (generateMockTripPlan r fd).totalDays 5
    ∧ ∀ d ∈ (generateMockTripPlan r fd).dayPlans,
        d.activities.map Activity.name =
          [generateActivityName fd.destination d.theme 0 fd.experienceType,
           generateActivityName fd.destination d.theme 1 fd.experienceType,
           generateActivityName fd.destination d.theme 2 fd.experienceType,
           generateActivityName fd.destination d.theme 3 fd.experienceType,
           generateActivityName fd.destination d.theme 0 fd.experienceType]
        ∧ (d.activities.map Activity.name).getD 0 "" =
            (d.activities.map Activity.name).getD 4 ""
        ∧ ∃ rest, (d.activities.map Activity.name).getD 0 "" = "Private " ++ rest := by
  have hcount : activityCount fd.experienceType = 5 := by
    unfold activityCount
    rw [if_neg (by omega), if_neg (by omega)]
  have hgen4 : ∀ theme,
      generateActivityName fd.destination theme 4 fd.experienceType =
        generateActivityName fd.destination theme 0 fd.experienceType := by
    intro theme
    unfold generateActivityName
    rw [baseActivityName_four]
  refine ⟨baseActivityChoices_length, ?_, ?_⟩
  · rw [List.eq_replicate_iff]
    constructor
    · simp [generateMockTripPlan_dayPlans, generateMockTripPlan_totalDays]
    · intro x hx
      rw [generateMockTripPlan_dayPlans, List.map_map, List.mem_map] at hx
      obtain ⟨i, _, rfl⟩ := hx
      simp [Function.comp, mkDayPlan_activities, hcount]
  · intro d hd
    rw [generateMockTripPlan_dayPlans, List.mem_map] at hd
    obtain ⟨day, _, rfl⟩ := hd
    have hnames :
        (mkDayPlan r fd.destination fd.experienceType (day + 1)).activities.map
            Activity.name =
          [generateActivityName fd.destination
             ((mkDayPlan r fd.destination fd.experienceType (day + 1)).theme) 0
             fd.experienceType,
           generateActivityName fd.destination
             ((mkDayPlan r fd.destination fd.experienceType (day + 1)).theme) 1
             fd.experienceType,
           generateActivityName fd.destination
             ((mkDayPlan r fd.destination fd.experienceType (day + 1)).theme) 2
             fd.experienceType,
           generateActivityName fd.destination
             ((mkDayPlan r fd.destination fd.experienceType (day + 1)).theme) 3
             fd.experienceType,
           generateActivityName fd.destination
             ((mkDayPlan r fd.destination fd.experienceType (day + 1)).theme) 0
             fd.experienceType] := by
      rw [mkDayPlan_activities, hcount,
        show List.range 5 = [0, 1, 2, 3, 4] from rfl]
      simp only [List.map_cons, List.map_nil, mkActivity_name, mkDayPlan_theme]
      rw [hgen4]
    refine ⟨hnames, ?_, ?_⟩
    · rw [hnames]
      rfl
    · rw [hnames]
      refine ⟨baseActivityName fd.destination
        ((mkDayPlan r fd.destination fd.experienceType (day + 1)).theme) 0, ?_⟩
      show generateActivityName _ _ 0 fd.experienceType = _
      unfold generateActivityName
      rw [if_pos he]

/-- Witness for C10 at the luxury request (level 80). -/
theorem generateMockTripPlan_luxury_slot_clash_witness :
    (∀ dest theme, (baseActivityChoices dest theme).length = 4)
    ∧ (generateMockTripPlan zeroDraws luxuryRequest).dayPlans.map
        (fun d => d.activities.length) =
        List.replicate (generateMockTripPlan zeroDraws luxuryRequest).totalDays 5
    ∧ ∀ d ∈ (generateMockTripPlan zeroDraws luxuryRequest).dayPlans,
        d.activities.map Activity.name =
          [generateActivityName luxuryRequest.destination d.theme 0
             luxuryRequest.experienceType,
           generateActivityName luxuryRequest.destination d.theme 1
             luxuryRequest.experienceType,
           generateActivityName luxuryRequest.destination d.theme 2
             luxuryRequest.experienceType,
           generateActivityName luxuryRequest.destination d.theme 3
             luxuryRequest.experienceType,
           generateActivityName luxuryRequest.destination d.theme 0
             luxuryRequest.experienceType]
        ∧ (d.activities.map Activity.name).getD 0 "" =
            (d.activities.map Activity.name).getD 4 ""
        ∧ ∃ rest, (d.activities.map Activity.name).getD 0 "" = "Private " ++ rest :=
  generateMockTripPlan_luxury_slot_clash zeroDraws luxuryRequest (by decide)

/-! ### C4: the Paris scenario -/

/-- At experience level 25 the budget branch (`experienceType <= 25`)
fires, so the Paris request's hotel is priced 1500 x 1.25 = 1875. -/
theorem mkHotel_paris_price : (mkHotel "Paris" 25).pricePerNight = 1875 := by
  show jsRound (1500 * (1 + ((25 : ℕ) : ℚ) / 100)) = 1875
  rw [show (1500 * (1 + ((25 : ℕ) : ℚ) / 100)) = (((1875 : ℤ) : ℚ)) by
    push_cast; norm_num]
  exact jsRound_intCast 1875

/-- C4 counterexample: the spec scenario for the Paris request claims a
comfort-tier hotel at 4375 per night and 4 activities per day; the code
puts level 25 into the budget band (1875 per night, 3 activities). -/
theorem scenario_paris_counterexample :
    ¬ ((generateMockTripPlan zeroDraws parisRequest).totalDays = 5
       ∧ (generateMockTripPlan zeroDraws parisRequest).hotels.map Hotel.pricePerNight =
           [4375]
       ∧ ∀ d ∈ (generateMockTripPlan zeroDraws parisRequest).dayPlans,
           d.activities.length = 4) := by
  rintro ⟨-, h1, -⟩
  have hp : (generateMockTripPlan zeroDraws parisRequest).hotels.map Hotel.pricePerNight =
      [1875] := by
    rw [generateMockTripPlan_hotels, List.map_cons, List.map_nil]
    show [(mkHotel "Paris" 25).pricePerNight] = [1875]
    rw [mkHotel_paris_price]
  rw [hp] at h1
  exact absurd h1 (by decide)

/-- C4 amended: the Paris request (level 25) yields 5 days, the
budget-band hotel at 1875 per night, and 3 activities per day whose
names carry no tier prefix (listed verbatim). -/
theorem scenario_paris_amended :
    (generateMockTripPlan zeroDraws parisRequest).totalDays = 5
    ∧ (generateMockTripPlan zeroDraws parisRequest).hotels.map
        (fun h => (h.name, h.pricePerNight)) = [("Paris Backpacker\x27s Haven", 1875)]
    ∧ (generateMockTripPlan zeroDraws parisRequest).dayPlans.map
        (fun d => d.activities.map Activity.name) =
        [["Paris Walking Tour", "Historic City Center Visit",
          "Local Orientation & Welcome Dinner"],
         ["Heritage Sites & Monuments", "Traditional Dance Performance",
          "Local Art Gallery Visit"],
         ["Nature Hiking Trail", "Water Sports Adventure", "Wildlife Safari Tour"],
         ["Street Food Walking Tour", "Cooking Class Experience",
          "Local Market Exploration"],
         ["City Tour", "Local Experience", "Cultural Visit"]] := by
  refine ⟨?_, ?_, ?_⟩
  · show totalDaysOf (40000 : ℚ) = 5
    exact totalDaysOf_40000
  · rw [generateMockTripPlan_hotels, List.map_cons, List.map_nil]
    show [((mkHotel "Paris" 25).name, (mkHotel "Paris" 25).pricePerNight)] =
      [("Paris Backpacker\x27s Haven", 1875)]
    rw [mkHotel_paris_price]
    rfl
  · rw [generateMockTripPlan_dayPlans,
      show totalDaysOf parisRequest.budget = 5 from totalDaysOf_40000,
      show List.range 5 = [0, 1, 2, 3, 4] from rfl]
    rfl

end TripPlanner
